import Mathlib

/-
Verification of the polymorphic value-object layer of src/src/object.c
(Redis 4.0 object implementation): creation of string objects, the
shared-integer registry, reference counting, opportunistic re-encoding
(tryObjectEncoding), string comparison and equality, numeric coercions,
and the MEMORY USAGE command path.

The C code is embedded shallowly: the object header robj becomes the
structure RObj, sds strings become byte lists with an allocation size,
pointers held in the payload slot become the inductive Ptr, and
serverPanic becomes the error case of Except.  Functions of util.c,
sds.c and server.c that object.c calls but that are not part of src/
(string2ll, string2l, ll2string, sdsnewlen, sdsRemoveFreeSpace, the
shared-integer registry) are modelled from the spec, as marked on each
definition.
-/

set_option maxHeartbeats 1000000

namespace Redis

/-- Logical value kinds: OBJ_STRING, OBJ_LIST, OBJ_SET, OBJ_ZSET, OBJ_HASH,
OBJ_MODULE. -/
inductive ObjType
  | string
  | list
  | set
  | zset
  | hash
  | moduleT
  deriving DecidableEq

/-- Physical encodings OBJ_ENCODING_*. -/
inductive ObjEncoding
  | raw
  | int
  | ht
  | quicklist
  | ziplist
  | intset
  | skiplist
  | embstr
  deriving DecidableEq

/-- A dynamic string (sds): the stored bytes plus the allocated capacity of
the buffer.  sdslen is the byte count, sdsavail the unused capacity. -/
structure Sds where
  buf : List Nat
  alloc : Nat
  deriving DecidableEq

def sdslen (s : Sds) : Nat := s.buf.length

def sdsavail (s : Sds) : Nat := s.alloc - sdslen s

/-- The possible contents of the robj payload slot (a void pointer in C).
For String values it is a dynamic string, a machine integer stored directly
in the slot, or NULL; aggregate payloads are handles whose internals are
outside this layer. -/
inductive Ptr
  | nullP
  | sdsP (s : Sds)
  | intP (n : Int)
  | quicklistP
  | ziplistP
  | dictP
  | intsetP
  | zsetP
  | moduleP
  deriving DecidableEq

/-- The value header robj: type, encoding, refcount, the 24-bit
LRU/LFU eviction metadata, and the payload slot. -/
structure RObj where
  type : ObjType
  encoding : ObjEncoding
  refcount : Int
  lru : Nat
  ptr : Ptr
  deriving DecidableEq

/-- OBJ_SHARED_REFCOUNT = INT_MAX: the immortal sentinel refcount. -/
def OBJ_SHARED_REFCOUNT : Int := 2147483647

/-- OBJ_SHARED_INTEGERS = 10000: the size of the shared-integer registry. -/
def OBJ_SHARED_INTEGERS : Int := 10000

/-- OBJ_ENCODING_EMBSTR_SIZE_LIMIT = 44. -/
def OBJ_ENCODING_EMBSTR_SIZE_LIMIT : Nat := 44

/-- LONG_MIN on the 64-bit platform the code targets. -/
def LONG_MIN : Int := -9223372036854775808

/-- LONG_MAX on the 64-bit platform the code targets. -/
def LONG_MAX : Int := 9223372036854775807

/-- LLONG_MAX. -/
def LLONG_MAX : Int := 9223372036854775807

/-- LFU_INIT_VAL = 5. -/
def LFU_INIT_VAL : Nat := 5

/-- The process-wide server state read by object.c: maxmemory, the
MAXMEMORY_FLAG_LFU and MAXMEMORY_FLAG_NO_SHARED_INTEGERS bits of
maxmemory_policy, and the two eviction clocks. -/
structure ServerCfg where
  maxmemory : Nat
  lfuPolicy : Bool
  noSharedIntegers : Bool
  lruClock : Nat
  lfuMinutes : Nat
  deriving DecidableEq

/-- The initial lru field of a new object: (LFUGetTimeInMinutes()<<8) |
LFU_INIT_VAL under an LFU policy, LRU_CLOCK() otherwise. -/
def lruInit (cfg : ServerCfg) : Nat :=
  if cfg.lfuPolicy then cfg.lfuMinutes * 256 + LFU_INIT_VAL else cfg.lruClock

/-- createObject: a fresh header with encoding RAW, refcount 1 and the
policy-dependent lru value. -/
def createObject (cfg : ServerCfg) (t : ObjType) (p : Ptr) : RObj :=
  ⟨t, ObjEncoding.raw, 1, lruInit cfg, p⟩

/-- The bytes a C constructor copies out of a caller buffer of the given
length: a NULL source is zero-filled (createEmbeddedStringObject); the list
is padded so it always has exactly len bytes, as the C buffer does. -/
def bytesOf : Option (List Nat) → Nat → List Nat
  | some bs, len => bs.take len ++ List.replicate (len - bs.length) 0
  | none, len => List.replicate len 0

/-- Modelled from the spec: sdsnewlen (sds library, not part of src/)
allocates an independent dynamic string of len bytes. -/
def sdsnewlen (init : Option (List Nat)) (len : Nat) : Sds :=
  ⟨bytesOf init len, len⟩

/-- createRawStringObject: header plus independent sds, encoding RAW. -/
def createRawStringObject (cfg : ServerCfg) (p : Option (List Nat)) (len : Nat) : RObj :=
  createObject cfg ObjType.string (Ptr.sdsP (sdsnewlen p len))

/-- createEmbeddedStringObject: one allocation carrying header and bytes,
encoding EMBSTR, refcount 1, alloc equal to len. -/
def createEmbeddedStringObject (cfg : ServerCfg) (p : Option (List Nat)) (len : Nat) : RObj :=
  ⟨ObjType.string, ObjEncoding.embstr, 1, lruInit cfg, Ptr.sdsP ⟨bytesOf p len, len⟩⟩

/-- createStringObject: EMBSTR at or below OBJ_ENCODING_EMBSTR_SIZE_LIMIT,
RAW above it. -/
def createStringObject (cfg : ServerCfg) (p : Option (List Nat)) (len : Nat) : RObj :=
  if len ≤ OBJ_ENCODING_EMBSTR_SIZE_LIMIT then createEmbeddedStringObject cfg p len
  else createRawStringObject cfg p len

/-- sdsEncodedObject: the object is still held as an array of chars
(encoding RAW or EMBSTR). -/
def sdsEncodedObject (o : RObj) : Bool :=
  match o.encoding with
  | ObjEncoding.raw => true
  | ObjEncoding.embstr => true
  | _ => false

/-- View of the payload slot as an sds; the fallback arm is never reached
for a well-formed string object (in C the pointer would simply be
reinterpreted). -/
def ptrSds : Ptr → Sds
  | Ptr.sdsP s => s
  | _ => ⟨[], 0⟩

/-- View of the payload slot as the machine integer stored in it ((long)
o->ptr); the fallback arm is never reached for a well-formed INT-encoded
object. -/
def ptrInt : Ptr → Int
  | Ptr.intP n => n
  | _ => 0

/-- Modelled from the spec: the shared-singleton registry (populated in
server.c, not part of src/) holds one immortal INT-encoded string object
for every integer in [0, OBJ_SHARED_INTEGERS). -/
def sharedIntegers (v : Nat) : RObj :=
  ⟨ObjType.string, ObjEncoding.int, OBJ_SHARED_REFCOUNT, 0, Ptr.intP v⟩

/-- incrRefCount: increment unless the refcount is the shared sentinel. -/
def incrRefCount (o : RObj) : RObj :=
  if o.refcount ≠ OBJ_SHARED_REFCOUNT then { o with refcount := o.refcount + 1 } else o

/-- freeStringObject: sdsfree of the payload iff the encoding is RAW; the
deallocation itself has no observable effect in the model and the routine
never panics. -/
def freeStringObject (_o : RObj) : Except String Unit := Except.ok ()

/-- freeListObject: releases a quicklist, panics on any other encoding. -/
def freeListObject (o : RObj) : Except String Unit :=
  if o.encoding = ObjEncoding.quicklist then Except.ok ()
  else Except.error ("Unknown list encoding type")

/-- freeSetObject: releases a hashtable or an intset, panics otherwise. -/
def freeSetObject (o : RObj) : Except String Unit :=
  match o.encoding with
  | ObjEncoding.ht => Except.ok ()
  | ObjEncoding.intset => Except.ok ()
  | _ => Except.error ("Unknown set encoding type")

/-- freeZsetObject: releases dict and skiplist, or the ziplist bytes;
panics otherwise. -/
def freeZsetObject (o : RObj) : Except String Unit :=
  match o.encoding with
  | ObjEncoding.skiplist => Except.ok ()
  | ObjEncoding.ziplist => Except.ok ()
  | _ => Except.error ("Unknown sorted set encoding")

/-- freeHashObject: releases a hashtable or the ziplist bytes; panics
otherwise. -/
def freeHashObject (o : RObj) : Except String Unit :=
  match o.encoding with
  | ObjEncoding.ht => Except.ok ()
  | ObjEncoding.ziplist => Except.ok ()
  | _ => Except.error ("Unknown hash encoding type")

/-- freeModuleObject: calls the module type free callback and frees the
moduleValue pair; never panics. -/
def freeModuleObject (_o : RObj) : Except String Unit := Except.ok ()

/-- The switch(o->type) of decrRefCount dispatching the kind-specific free
routine; ObjType covers exactly the six cases, so the C default panic arm
is unrepresentable. -/
def freeDispatch (o : RObj) : Except String Unit :=
  match o.type with
  | ObjType.string => freeStringObject o
  | ObjType.list => freeListObject o
  | ObjType.set => freeSetObject o
  | ObjType.zset => freeZsetObject o
  | ObjType.hash => freeHashObject o
  | ObjType.moduleT => freeModuleObject o

/-- Outcome of decrRefCount: the object was freed, or it is still live
with the given header contents. -/
inductive DecrResult
  | freed
  | live (o : RObj)
  deriving DecidableEq

/-- decrRefCount: at refcount 1 dispatch the free routine then zfree the
header; otherwise panic at refcount <= 0, and decrement unless the
refcount is the shared sentinel. -/
def decrRefCount (o : RObj) : Except String DecrResult :=
  if o.refcount = 1 then
    match freeDispatch o with
    | Except.ok _ => Except.ok DecrResult.freed
    | Except.error e => Except.error e
  else if o.refcount ≤ 0 then Except.error ("decrRefCount against refcount <= 0")
  else if o.refcount ≠ OBJ_SHARED_REFCOUNT then
    Except.ok (DecrResult.live { o with refcount := o.refcount - 1 })
  else Except.ok (DecrResult.live o)

/-- Byte b is an ASCII decimal digit. -/
def isDigitByte (b : Nat) : Bool := 48 ≤ b && b ≤ 57

/-- Accumulate the value of a digit-byte list. -/
def digitsVal (ds : List Nat) : Nat :=
  ds.foldl (fun acc b => acc * 10 + (b - 48)) 0

/-- A nonempty all-digit byte list evaluates to its value, anything else to
none. -/
def digitsVal? (ds : List Nat) : Option Nat :=
  if ds ≠ [] ∧ ds.all isDigitByte then some (digitsVal ds) else none

/-- Modelled from the spec: string2ll (util.c, not part of src/) parses the
whole byte string as a signed 64-bit integer, rejecting empty input,
leading whitespace, trailing garbage and overflow. -/
def string2ll (s : List Nat) : Option Int :=
  match s with
  | 45 :: rest =>
    match digitsVal? rest with
    | some m => if (m : Int) ≤ 9223372036854775808 then some (-(m : Int)) else none
    | none => none
  | _ =>
    match digitsVal? s with
    | some m => if (m : Int) ≤ LLONG_MAX then some (m : Int) else none
    | none => none

/-- Modelled from the spec: string2l (util.c, not part of src/) is
string2ll followed by a check against the range of long. -/
def string2l (s : List Nat) : Option Int :=
  match string2ll s with
  | some v => if LONG_MIN ≤ v ∧ v ≤ LONG_MAX then some v else none
  | none => none

/-- Decimal digit bytes of a natural number, most significant first. -/
def natDigits (m : Nat) : List Nat :=
  if m = 0 then [48] else ((Nat.digits 10 m).map (fun d => d + 48)).reverse

/-- Modelled from the spec: ll2string (util.c, not part of src/) renders a
signed integer in decimal form. -/
def ll2string (n : Int) : List Nat :=
  if n < 0 then 45 :: natDigits n.natAbs else natDigits n.toNat

/-- Modelled from the spec: sdsfromlonglong (sds library, not part of
src/) builds an sds holding the decimal form of the integer. -/
def sdsfromlonglong (v : Int) : Sds :=
  ⟨ll2string v, (ll2string v).length⟩

/-- Result of createStringObjectFromLongLong: either the shared singleton
for v (the same header pointer as every other call with the same v), or a
freshly allocated object. -/
inductive CreateFromLLResult
  | sharedObj (v : Nat)
  | newObj (o : RObj)
  deriving DecidableEq

/-- True exactly on the freshly-allocated alternative. -/
def isNewObj : CreateFromLLResult → Bool
  | CreateFromLLResult.newObj _ => true
  | _ => false

/-- createStringObjectFromLongLong: for 0 <= value < OBJ_SHARED_INTEGERS
incrRefCount the registry entry (a no-op on the immortal sentinel) and
return it; otherwise an INT-encoded fresh header when the value fits a
long, else a RAW decimal string.  Note the eviction policy is not
consulted on this path. -/
def createStringObjectFromLongLong (cfg : ServerCfg) (value : Int) : CreateFromLLResult :=
  if 0 ≤ value ∧ value < OBJ_SHARED_INTEGERS then
    CreateFromLLResult.sharedObj value.toNat
  else if LONG_MIN ≤ value ∧ value ≤ LONG_MAX then
    CreateFromLLResult.newObj
      { createObject cfg ObjType.string Ptr.nullP with
          encoding := ObjEncoding.int, ptr := Ptr.intP value }
  else
    CreateFromLLResult.newObj (createObject cfg ObjType.string (Ptr.sdsP (sdsfromlonglong value)))

/-- The shared-integer gate of tryObjectEncoding: server.maxmemory == 0 ||
!(server.maxmemory_policy & MAXMEMORY_FLAG_NO_SHARED_INTEGERS). -/
def sharedEnabled (cfg : ServerCfg) : Bool :=
  cfg.maxmemory == 0 || !cfg.noSharedIntegers

/-- Modelled from the spec: sdsRemoveFreeSpace (sds library, not part of
src/) shrinks the allocation to the exact string length. -/
def sdsRemoveFreeSpace (s : Sds) : Sds := ⟨s.buf, s.buf.length⟩

/-- Identity of the object returned by tryObjectEncoding: a registry
singleton, the argument header itself (possibly modified in place), or a
freshly allocated header. -/
inductive EncTag
  | sharedInt (v : Nat)
  | same
  | fresh
  deriving DecidableEq

/-- Return value of tryObjectEncoding: which header is returned, and its
contents. -/
structure EncOut where
  tag : EncTag
  obj : RObj
  deriving DecidableEq

/-- tryObjectEncoding: asserts a String object; passes through non-sds
encodings and shared objects; turns a short parseable string into the
shared singleton (decr-ing the original) or an in-place INT encoding;
re-encodes a short RAW string as a fresh EMBSTR (decr-ing the original);
shrinks an oversized RAW allocation. -/
def tryObjectEncoding (cfg : ServerCfg) (o : RObj) : Except String EncOut :=
  if o.type = ObjType.string then
    if sdsEncodedObject o = true then
      if o.refcount ≤ 1 then
        match (if sdslen (ptrSds o.ptr) ≤ 20 then string2l (ptrSds o.ptr).buf else none) with
        | some value =>
          if sharedEnabled cfg = true ∧ 0 ≤ value ∧ value < OBJ_SHARED_INTEGERS then
            match decrRefCount o with
            | Except.ok _ =>
              Except.ok ⟨EncTag.sharedInt value.toNat, sharedIntegers value.toNat⟩
            | Except.error e => Except.error e
          else
            Except.ok ⟨EncTag.same, { o with encoding := ObjEncoding.int, ptr := Ptr.intP value }⟩
        | none =>
          if sdslen (ptrSds o.ptr) ≤ OBJ_ENCODING_EMBSTR_SIZE_LIMIT then
            if o.encoding = ObjEncoding.embstr then Except.ok ⟨EncTag.same, o⟩
            else
              match decrRefCount o with
              | Except.ok _ =>
                Except.ok ⟨EncTag.fresh,
                  createEmbeddedStringObject cfg (some (ptrSds o.ptr).buf) (sdslen (ptrSds o.ptr))⟩
              | Except.error e => Except.error e
          else
            if o.encoding = ObjEncoding.raw ∧
                sdslen (ptrSds o.ptr) / 10 < sdsavail (ptrSds o.ptr) then
              Except.ok ⟨EncTag.same, { o with ptr := Ptr.sdsP (sdsRemoveFreeSpace (ptrSds o.ptr)) }⟩
            else Except.ok ⟨EncTag.same, o⟩
      else Except.ok ⟨EncTag.same, o⟩
    else Except.ok ⟨EncTag.same, o⟩
  else Except.error ("tryObjectEncoding: o->type == OBJ_STRING failed")

/-- The logical string bytes of a String object: the sds contents for
string-form encodings, the decimal form of the payload for INT. -/
def strBytes (o : RObj) : List Nat :=
  match o.ptr with
  | Ptr.sdsP s => s.buf
  | Ptr.intP n => ll2string n
  | _ => []

/-- REDIS_COMPARE_BINARY. -/
def REDIS_COMPARE_BINARY : Nat := 1

/-- REDIS_COMPARE_COLL. -/
def REDIS_COMPARE_COLL : Nat := 2

/-- The byte string compareStringObjectsWithFlags materializes for one
argument: the sds bytes when sds-encoded, else the stack-buffer decimal
form of the payload integer. -/
def objStr (o : RObj) : List Nat :=
  if sdsEncodedObject o = true then (ptrSds o.ptr).buf else ll2string (ptrInt o.ptr)

/-- memcmp over the first n bytes of two buffers; our callers always pass
n at most both lengths. -/
def memcmp : List Nat → List Nat → Nat → Int
  | _, _, 0 => 0
  | [], _, _ + 1 => 0
  | _ :: _, [], _ + 1 => 0
  | a :: as, b :: bs, n + 1 => if a = b then memcmp as bs n else (a : Int) - (b : Int)

/-- compareStringObjectsWithFlags: asserts two String objects, returns 0 on
pointer identity, then compares the materialized bytes with strcoll under
REDIS_COMPARE_COLL or with memcmp plus a length tie-break otherwise.  The
locale collation primitive is a parameter. -/
def compareStringObjectsWithFlags (strcoll : List Nat → List Nat → Int)
    (a b : RObj) (flags : Nat) : Except String Int :=
  if a.type = ObjType.string ∧ b.type = ObjType.string then
    if a = b then Except.ok 0
    else
      if flags &&& REDIS_COMPARE_COLL ≠ 0 then Except.ok (strcoll (objStr a) (objStr b))
      else
        if memcmp (objStr a) (objStr b) (min (objStr a).length (objStr b).length) = 0 then
          Except.ok (((objStr a).length : Int) - ((objStr b).length : Int))
        else Except.ok (memcmp (objStr a) (objStr b) (min (objStr a).length (objStr b).length))
  else Except.error ("compareStringObjectsWithFlags: OBJ_STRING assertion failed")

/-- compareStringObjects: the binary-comparison wrapper. -/
def compareStringObjects (strcoll : List Nat → List Nat → Int) (a b : RObj) : Except String Int :=
  compareStringObjectsWithFlags strcoll a b REDIS_COMPARE_BINARY

/-- equalStringObjects: payload comparison when both are INT encoded, else
equality of the binary comparison with 0. -/
def equalStringObjects (strcoll : List Nat → List Nat → Int) (a b : RObj) : Except String Int :=
  if a.encoding = ObjEncoding.int ∧ b.encoding = ObjEncoding.int then
    Except.ok (if a.ptr = b.ptr then 1 else 0)
  else
    match compareStringObjects strcoll a b with
    | Except.ok c => Except.ok (if c = 0 then 1 else 0)
    | Except.error e => Except.error e

/-- The values a double variable can hold, as far as object.c inspects
them: NaN, plus or minus HUGE_VAL, or an ordinary finite value. -/
inductive Dbl
  | nan
  | posHuge
  | negHuge
  | finite (q : ℚ)
  deriving DecidableEq

/-- Result of a strtod/strtold call: the value, how many bytes of the
input were consumed (eptr - ptr), and whether errno was set to ERANGE. -/
structure StrtoResult where
  val : Dbl
  consumed : Nat
  erange : Bool
  deriving DecidableEq

/-- isspace on a byte. -/
def isspaceByte (b : Nat) : Bool := b == 32 || (9 ≤ b && b ≤ 13)

/-- isspace(ptr[0]) as getDoubleFromObject applies it; the terminating NUL
of an empty buffer is not a space. -/
def headIsSpace : List Nat → Bool
  | [] => false
  | h :: _ => isspaceByte h

/-- getDoubleFromObject: NULL yields 0; an sds-encoded string is parsed by
strtod (a libc parameter of the model) and rejected on empty input,
leading whitespace, incomplete consumption, an ERANGE result at plus or minus
HUGE_VAL or 0, or NaN; INT encoding reads the payload; other encodings
panic.  ok none is C_ERR with the output slot untouched; ok (some v) is
C_OK with v written. -/
def getDoubleFromObject (strtodFn : List Nat → StrtoResult) (o : Option RObj) :
    Except String (Option Dbl) :=
  match o with
  | none => Except.ok (some (Dbl.finite 0))
  | some o =>
    if o.type = ObjType.string then
      if sdsEncodedObject o = true then
        if sdslen (ptrSds o.ptr) = 0 ∨ headIsSpace (ptrSds o.ptr).buf = true ∨
            (strtodFn (ptrSds o.ptr).buf).consumed ≠ sdslen (ptrSds o.ptr) ∨
            ((strtodFn (ptrSds o.ptr).buf).erange = true ∧
              ((strtodFn (ptrSds o.ptr).buf).val = Dbl.posHuge ∨
               (strtodFn (ptrSds o.ptr).buf).val = Dbl.negHuge ∨
               (strtodFn (ptrSds o.ptr).buf).val = Dbl.finite 0)) ∨
            (strtodFn (ptrSds o.ptr).buf).val = Dbl.nan then
          Except.ok none
        else Except.ok (some (strtodFn (ptrSds o.ptr).buf).val)
      else if o.encoding = ObjEncoding.int then
        Except.ok (some (Dbl.finite ((ptrInt o.ptr : ℚ))))
      else Except.error ("Unknown string encoding")
    else Except.error ("getDoubleFromObject: o->type == OBJ_STRING failed")

/-- getLongDoubleFromObject: same shape as getDoubleFromObject with
strtold in place of strtod. -/
def getLongDoubleFromObject (strtoldFn : List Nat → StrtoResult) (o : Option RObj) :
    Except String (Option Dbl) :=
  match o with
  | none => Except.ok (some (Dbl.finite 0))
  | some o =>
    if o.type = ObjType.string then
      if sdsEncodedObject o = true then
        if sdslen (ptrSds o.ptr) = 0 ∨ headIsSpace (ptrSds o.ptr).buf = true ∨
            (strtoldFn (ptrSds o.ptr).buf).consumed ≠ sdslen (ptrSds o.ptr) ∨
            ((strtoldFn (ptrSds o.ptr).buf).erange = true ∧
              ((strtoldFn (ptrSds o.ptr).buf).val = Dbl.posHuge ∨
               (strtoldFn (ptrSds o.ptr).buf).val = Dbl.negHuge ∨
               (strtoldFn (ptrSds o.ptr).buf).val = Dbl.finite 0)) ∨
            (strtoldFn (ptrSds o.ptr).buf).val = Dbl.nan then
          Except.ok none
        else Except.ok (some (strtoldFn (ptrSds o.ptr).buf).val)
      else if o.encoding = ObjEncoding.int then
        Except.ok (some (Dbl.finite ((ptrInt o.ptr : ℚ))))
      else Except.error ("Unknown string encoding")
    else Except.error ("getLongDoubleFromObject: o->type == OBJ_STRING failed")

/-- getLongLongFromObject: NULL yields 0; an sds-encoded string goes
through string2ll; INT encoding reads the payload; other encodings panic.
ok none is C_ERR, ok (some v) is C_OK with value v. -/
def getLongLongFromObject (o : Option RObj) : Except String (Option Int) :=
  match o with
  | none => Except.ok (some 0)
  | some o =>
    if o.type = ObjType.string then
      if sdsEncodedObject o = true then
        match string2ll (ptrSds o.ptr).buf with
        | some v => Except.ok (some v)
        | none => Except.ok none
      else if o.encoding = ObjEncoding.int then
        Except.ok (some (ptrInt o.ptr))
      else Except.error ("Unknown string encoding")
    else Except.error ("getLongLongFromObject: o->type == OBJ_STRING failed")

/-- The external collaborators of the MEMORY USAGE path that object.c
treats as black boxes: objectComputeSize (whose aggregate sampling
averages with floating-point arithmetic and allocator-reported sizes),
sdsAllocSize, and sizeof(dictEntry). -/
structure MemCtx where
  computeSize : RObj → Nat → Nat
  allocSize : Sds → Nat
  dictEntrySize : Nat

/-- The replies the modelled MEMORY USAGE path can produce. -/
inductive Reply
  | synErr
  | nullBulk
  | notIntErr
  | longlong (n : Int)
  | panicked (msg : String)
  | unmodeledSub
  deriving DecidableEq

/-- OBJ_COMPUTE_SIZE_DEF_SAMPLES = 5. -/
def OBJ_COMPUTE_SIZE_DEF_SAMPLES : Int := 5

/-- The bytes of the literal "samples". -/
def samplesLit : List Nat := [115, 97, 109, 112, 108, 101, 115]

/-- The bytes of the literal "usage". -/
def usageLit : List Nat := [117, 115, 97, 103, 101]

/-- ASCII lower-casing of one byte. -/
def toLowerByte (b : Nat) : Nat := if 65 ≤ b ∧ b ≤ 90 then b + 32 else b

/-- strcasecmp(a, b) == 0. -/
def strcaseEq (a b : List Nat) : Bool :=
  decide (a.map toLowerByte = b.map toLowerByte)

/-- The sds bytes of a command argument object. -/
def objBytes (o : RObj) : List Nat := (ptrSds o.ptr).buf

/-- The option-scanning loop of the MEMORY USAGE branch, starting from the
default sample count: each option must be SAMPLES followed by a count
argument; a negative count is a syntax error, a zero count becomes
LLONG_MAX; anything else is a syntax error.  An early reply ends the
command. -/
def memoryUsageOptions : List RObj → Int → Except Reply Int
  | [], samples => Except.ok samples
  | [_], _ => Except.error Reply.synErr
  | a :: b :: rest, _ =>
    if strcaseEq (objBytes a) samplesLit = true then
      match getLongLongFromObject (some b) with
      | Except.error e => Except.error (Reply.panicked e)
      | Except.ok none => Except.error Reply.notIntErr
      | Except.ok (some v) =>
        if v < 0 then Except.error Reply.synErr
        else memoryUsageOptions rest (if v = 0 then LLONG_MAX else v)
    else Except.error Reply.synErr

/-- objectCommandLookup: find the value stored under the key bytes in the
database dict. -/
def dbLookup (db : List (List Nat × RObj)) (k : List Nat) : Option RObj :=
  match db with
  | [] => none
  | (k2, v) :: rest => if k2 = k then some v else dbLookup rest k

/-- memoryCommand, USAGE branch: parse [SAMPLES n] starting from the
default of 5, look the key up (nullbulk when absent), and reply with
objectComputeSize(o, samples) + sdsAllocSize(key) + sizeof(dictEntry).
The other MEMORY subcommands are outside the claims and collapse to
unmodeledSub. -/
def memoryCommandUsage (ctx : MemCtx) (db : List (List Nat × RObj)) (argv : List RObj) : Reply :=
  match argv with
  | _ :: sub :: key :: opts =>
    if strcaseEq (objBytes sub) usageLit = true then
      match memoryUsageOptions opts OBJ_COMPUTE_SIZE_DEF_SAMPLES with
      | Except.error r => r
      | Except.ok samples =>
        match dbLookup db (objBytes key) with
        | none => Reply.nullBulk
        | some o =>
          Reply.longlong
            ((ctx.computeSize o samples.toNat + ctx.allocSize (ptrSds key.ptr) +
              ctx.dictEntrySize : Nat) : Int)
    else Reply.unmodeledSub
  | _ => Reply.unmodeledSub

/-- A server configuration with sharing enabled (maxmemory 0). -/
def cfg0 : ServerCfg := ⟨0, false, false, 7, 3⟩

/-- A server configuration whose eviction policy disables shared integers
(maxmemory set and MAXMEMORY_FLAG_NO_SHARED_INTEGERS set). -/
def cfgNoShared : ServerCfg := ⟨1048576, false, true, 7, 3⟩

/-- A RAW string object holding the byte "5" in the transient refcount-0
hand-off state that resetRefCount produces. -/
def oRefZero : RObj := ⟨ObjType.string, ObjEncoding.raw, 0, 0, Ptr.sdsP ⟨[53], 1⟩⟩

/-- A concrete EMBSTR object holding "abc", as createStringObject builds
it. -/
def oAbc : RObj := createStringObject cfg0 (some [97, 98, 99]) 3

/-- A RAW string object holding the byte "5" with refcount 1. -/
def oFive : RObj := ⟨ObjType.string, ObjEncoding.raw, 1, 0, Ptr.sdsP ⟨[53], 1⟩⟩

/-- A live non-shared RAW string object with refcount 2. -/
def oLive2 : RObj := ⟨ObjType.string, ObjEncoding.raw, 2, 0, Ptr.sdsP ⟨[], 0⟩⟩

/-- A fresh RAW command-argument object holding the given bytes. -/
def mkArg (bs : List Nat) : RObj :=
  ⟨ObjType.string, ObjEncoding.raw, 1, 0, Ptr.sdsP ⟨bs, bs.length⟩⟩

/-- A concrete instantiation of the memory-accounting collaborators. -/
def ctx0 : MemCtx := ⟨fun _ n => n + 3, fun s => s.buf.length + 16, 24⟩

/-- The key object "k". -/
def keyK : RObj := mkArg [107]

/-- The value stored under "k". -/
def valObj : RObj := createStringObject cfg0 (some [104, 105]) 2

/-- A one-key database mapping "k" to valObj. -/
def db0 : List (List Nat × RObj) := [([107], valObj)]

/-- The argument object "memory". -/
def argMemory : RObj := mkArg [109, 101, 109, 111, 114, 121]

/-- The argument object "USAGE" (upper case, exercising strcasecmp). -/
def argUsage : RObj := mkArg [85, 83, 65, 71, 69]

/-- The argument object "SAMPLES" (upper case, exercising strcasecmp). -/
def argSamples : RObj := mkArg [83, 65, 77, 80, 76, 69, 83]

/-- The argument object "3". -/
def argThree : RObj := mkArg [51]

/-- The argument object "0". -/
def argZero : RObj := mkArg [48]

/-- A strtod behaviour that consumes the whole input, reports no range
error, and yields the finite value 7. -/
def strtoOk : List Nat → StrtoResult := fun bs => ⟨Dbl.finite 7, bs.length, false⟩

/-- A string-form object holding "1". -/
def oNum : RObj := mkArg [49]

/-- An INT-encoded string object with payload 2. -/
def aInt2 : RObj := ⟨ObjType.string, ObjEncoding.int, 1, 0, Ptr.intP 2⟩

/-- Another INT-encoded string object with payload 2 (a distinct header). -/
def bInt2 : RObj := ⟨ObjType.string, ObjEncoding.int, 4, 9, Ptr.intP 2⟩

/-- A trivial locale collation function for witnesses. -/
def collDummy : List Nat → List Nat → Int := fun _ _ => 0

/-- Dispatching the free routines on a String object never panics:
freeStringObject handles every encoding. -/
theorem freeDispatch_string (o : RObj) (ht : o.type = ObjType.string) :
    freeDispatch o = Except.ok () := by
  simp [freeDispatch, ht, freeStringObject]

/-- decrRefCount on a String object with refcount 1 frees it. -/
theorem decrRefCount_one_string (o : RObj) (ht : o.type = ObjType.string)
    (h1 : o.refcount = 1) : decrRefCount o = Except.ok DecrResult.freed := by
  simp [decrRefCount, h1, freeDispatch_string o ht]

/-- C3: decrRefCount on a non-shared value dispatches the kind-specific
free routine and then deallocates the header when the refcount is 1,
decrements the refcount by exactly one when it is above 1, and fails
fatally whenever the refcount is at most 0. -/
theorem decrRefCount_nonshared (o : RObj) (hns : o.refcount ≠ OBJ_SHARED_REFCOUNT) :
    (o.refcount = 1 →
      decrRefCount o = Except.map (fun _ => DecrResult.freed) (freeDispatch o)) ∧
    (1 < o.refcount →
      decrRefCount o = Except.ok (DecrResult.live { o with refcount := o.refcount - 1 })) ∧
    (o.refcount ≤ 0 →
      decrRefCount o = Except.error ("decrRefCount against refcount <= 0")) := by
  refine ⟨fun h1 => ?_, fun hgt => ?_, fun hle => ?_⟩
  · rw [decrRefCount, if_pos h1]
    cases freeDispatch o <;> rfl
  · have h1 : ¬ o.refcount = 1 := by omega
    have h0 : ¬ o.refcount ≤ 0 := by omega
    rw [decrRefCount, if_neg h1, if_neg h0, if_pos hns]
  · have h1 : ¬ o.refcount = 1 := by omega
    rw [decrRefCount, if_neg h1, if_pos hle]

/-- Witness for C3 at a concrete refcount-2 object. -/
theorem decrRefCount_nonshared_witness :
    decrRefCount oLive2 = Except.ok (DecrResult.live { oLive2 with refcount := oLive2.refcount - 1 }) :=
  (decrRefCount_nonshared oLive2 (by decide)).2.1 (by decide)

/-- C4: on a value whose refcount is the shared sentinel, incrRefCount and
decrRefCount leave every field unchanged and never free the value. -/
theorem sharedRefcount_immutable (o : RObj) (h : o.refcount = OBJ_SHARED_REFCOUNT) :
    incrRefCount o = o ∧ decrRefCount o = Except.ok (DecrResult.live o) := by
  constructor
  · simp [incrRefCount, h]
  · have h1 : ¬ o.refcount = 1 := by rw [h]; decide
    have h0 : ¬ o.refcount ≤ 0 := by rw [h]; decide
    rw [decrRefCount, if_neg h1, if_neg h0, if_neg (fun hc => hc h)]

/-- Witness for C4 at the shared singleton for 3. -/
theorem sharedRefcount_immutable_witness :
    incrRefCount (sharedIntegers 3) = sharedIntegers 3 ∧
    decrRefCount (sharedIntegers 3) = Except.ok (DecrResult.live (sharedIntegers 3)) :=
  sharedRefcount_immutable (sharedIntegers 3) rfl

/-- C5: createStringObject returns an EMBSTR-encoded value exactly when
the length is at most 44, and a RAW-encoded value above 44. -/
theorem createStringObject_embstr_iff (cfg : ServerCfg) (p : Option (List Nat)) (len : Nat) :
    ((createStringObject cfg p len).encoding = ObjEncoding.embstr ↔ len ≤ 44) ∧
    (44 < len → (createStringObject cfg p len).encoding = ObjEncoding.raw) := by
  by_cases h : len ≤ 44 <;>
    simp [createStringObject, OBJ_ENCODING_EMBSTR_SIZE_LIMIT, h,
      createEmbeddedStringObject, createRawStringObject, createObject]

/-- Witness for C5 at length 45. -/
theorem createStringObject_embstr_iff_witness :
    (createStringObject cfg0 (some (List.replicate 45 97)) 45).encoding = ObjEncoding.raw :=
  (createStringObject_embstr_iff cfg0 (some (List.replicate 45 97)) 45).2 (by decide)

/-- C1 (amended): createStringObjectFromLongLong returns the shared
singleton for every v in [0, OBJ_SHARED_INTEGERS) regardless of the
eviction policy; the incrRefCount it performs is a no-op on the immortal
sentinel. -/
theorem createStringObjectFromLongLong_shared_always (cfg : ServerCfg) (v : Int)
    (h0 : 0 ≤ v) (h1 : v < OBJ_SHARED_INTEGERS) :
    createStringObjectFromLongLong cfg v = CreateFromLLResult.sharedObj v.toNat := by
  rw [createStringObjectFromLongLong, if_pos ⟨h0, h1⟩]

/-- Witness for the amended C1 at v = 7. -/
theorem createStringObjectFromLongLong_shared_always_witness :
    createStringObjectFromLongLong cfg0 7 = CreateFromLLResult.sharedObj 7 :=
  createStringObjectFromLongLong_shared_always cfg0 7 (by decide) (by decide)

/-- Counterexample to C1 as stated: under a policy that disables shared
integers (the very condition tryObjectEncoding checks), makeFromInt(5)
still returns the shared singleton and does not create a fresh value. -/
theorem createStringObjectFromLongLong_ignores_policy :
    sharedEnabled cfgNoShared = false ∧
    createStringObjectFromLongLong cfgNoShared 5 = CreateFromLLResult.sharedObj 5 ∧
    isNewObj (createStringObjectFromLongLong cfgNoShared 5) = false := by
  refine ⟨by decide, by decide, by decide⟩

/-- C10: each numeric coercion maps a NULL object pointer to success with
the value 0. -/
theorem nullObject_coercions_ok :
    getLongLongFromObject none = Except.ok (some 0) ∧
    (∀ f, getDoubleFromObject f none = Except.ok (some (Dbl.finite 0))) ∧
    (∀ g, getLongDoubleFromObject g none = Except.ok (some (Dbl.finite 0))) :=
  ⟨rfl, fun _ => rfl, fun _ => rfl⟩

/-- C2 (amended): on a string-form String object with refcount exactly 1
whose at-most-20-byte contents parse as a signed long n, tryObjectEncoding
returns the shared singleton for n (the original decr-ed away, the
singleton incr a no-op) when sharing is enabled and n is in range, and
otherwise re-tags the same header as INT with n in the payload slot (the
old RAW payload freed). -/
theorem tryObjectEncoding_int_cases (cfg : ServerCfg) (o : RObj) (s : Sds) (n : Int)
    (ht : o.type = ObjType.string) (hp : o.ptr = Ptr.sdsP s)
    (he : sdsEncodedObject o = true) (hrc : o.refcount = 1)
    (hlen : sdslen s ≤ 20) (hparse : string2l s.buf = some n) :
    (sharedEnabled cfg = true ∧ 0 ≤ n ∧ n < OBJ_SHARED_INTEGERS →
      tryObjectEncoding cfg o =
        Except.ok ⟨EncTag.sharedInt n.toNat, sharedIntegers n.toNat⟩) ∧
    (¬ (sharedEnabled cfg = true ∧ 0 ≤ n ∧ n < OBJ_SHARED_INTEGERS) →
      tryObjectEncoding cfg o =
        Except.ok ⟨EncTag.same, { o with encoding := ObjEncoding.int, ptr := Ptr.intP n }⟩) := by
  have hd : decrRefCount o = Except.ok DecrResult.freed := decrRefCount_one_string o ht hrc
  have hr1 : o.refcount ≤ 1 := by omega
  constructor
  · intro hcond
    simp [tryObjectEncoding, ht, he, hr1, hp, ptrSds, hlen, hparse, hcond, hd]
  · intro hcond
    simp [tryObjectEncoding, ht, he, hr1, hp, ptrSds, hlen, hparse, hcond]

/-- Witness for the amended C2: "5" with sharing enabled becomes the
shared singleton for 5. -/
theorem tryObjectEncoding_int_cases_witness :
    tryObjectEncoding cfg0 oFive =
      Except.ok ⟨EncTag.sharedInt (5 : Int).toNat, sharedIntegers (5 : Int).toNat⟩ :=
  (tryObjectEncoding_int_cases cfg0 oFive ⟨[53], 1⟩ 5 rfl rfl (by decide) rfl (by decide)
    (by decide)).1 (by decide)

/-- Counterexample to C2 as stated: the claim allows refcount 0 (it says
refcount <= 1), but on a RAW "5" with refcount 0, sharing enabled and 5 in
the shared range, tryObjectEncoding panics inside decrRefCount instead of
returning the shared singleton. -/
theorem tryObjectEncoding_refzero_panics :
    oRefZero.refcount ≤ 1 ∧ sdsEncodedObject oRefZero = true ∧
    sdslen (ptrSds oRefZero.ptr) ≤ 20 ∧
    string2l (ptrSds oRefZero.ptr).buf = some 5 ∧
    sharedEnabled cfg0 = true ∧
    tryObjectEncoding cfg0 oRefZero = Except.error ("decrRefCount against refcount <= 0") :=
  ⟨by decide, by decide, by decide, by decide, by decide, rfl⟩

/-- C8: on a string-form String object, getDoubleFromObject and
getLongDoubleFromObject fail (returning C_ERR without writing the output)
exactly when the bytes are empty, begin with whitespace, are not consumed
entirely by the parse, produced a range error, or parsed to NaN; otherwise
they succeed with the parsed value.  The hypotheses on the two libc
parsers state that an ERANGE result carries plus or minus HUGE_VAL or 0,
which is how strtod and strtold report out-of-range input. -/
theorem getDoubleFromObject_error_iff (f g : List Nat → StrtoResult) (o : RObj) (s : Sds)
    (ht : o.type = ObjType.string) (he : sdsEncodedObject o = true) (hp : o.ptr = Ptr.sdsP s)
    (hf : (f s.buf).erange = true →
      (f s.buf).val = Dbl.posHuge ∨ (f s.buf).val = Dbl.negHuge ∨ (f s.buf).val = Dbl.finite 0)
    (hg : (g s.buf).erange = true →
      (g s.buf).val = Dbl.posHuge ∨ (g s.buf).val = Dbl.negHuge ∨ (g s.buf).val = Dbl.finite 0) :
    (getDoubleFromObject f (some o) = Except.ok none ↔
      (s.buf = [] ∨ headIsSpace s.buf = true ∨ (f s.buf).consumed ≠ s.buf.length ∨
        (f s.buf).erange = true ∨ (f s.buf).val = Dbl.nan)) ∧
    (¬ (s.buf = [] ∨ headIsSpace s.buf = true ∨ (f s.buf).consumed ≠ s.buf.length ∨
        (f s.buf).erange = true ∨ (f s.buf).val = Dbl.nan) →
      getDoubleFromObject f (some o) = Except.ok (some (f s.buf).val)) ∧
    (getLongDoubleFromObject g (some o) = Except.ok none ↔
      (s.buf = [] ∨ headIsSpace s.buf = true ∨ (g s.buf).consumed ≠ s.buf.length ∨
        (g s.buf).erange = true ∨ (g s.buf).val = Dbl.nan)) ∧
    (¬ (s.buf = [] ∨ headIsSpace s.buf = true ∨ (g s.buf).consumed ≠ s.buf.length ∨
        (g s.buf).erange = true ∨ (g s.buf).val = Dbl.nan) →
      getLongDoubleFromObject g (some o) = Except.ok (some (g s.buf).val)) := by
  have hcond : ∀ (r : StrtoResult),
      (r.erange = true → r.val = Dbl.posHuge ∨ r.val = Dbl.negHuge ∨ r.val = Dbl.finite 0) →
      ((sdslen s = 0 ∨ headIsSpace s.buf = true ∨ r.consumed ≠ sdslen s ∨
          (r.erange = true ∧
            (r.val = Dbl.posHuge ∨ r.val = Dbl.negHuge ∨ r.val = Dbl.finite 0)) ∨
          r.val = Dbl.nan) ↔
        (s.buf = [] ∨ headIsSpace s.buf = true ∨ r.consumed ≠ s.buf.length ∨
          r.erange = true ∨ r.val = Dbl.nan)) := by
    intro r hr
    have hlen : sdslen s = 0 ↔ s.buf = [] := List.length_eq_zero
    have hlen2 : sdslen s = s.buf.length := rfl
    rw [hlen, hlen2]
    constructor
    · rintro (h | h | h | ⟨h, -⟩ | h)
      · exact Or.inl h
      · exact Or.inr (Or.inl h)
      · exact Or.inr (Or.inr (Or.inl h))
      · exact Or.inr (Or.inr (Or.inr (Or.inl h)))
      · exact Or.inr (Or.inr (Or.inr (Or.inr h)))
    · rintro (h | h | h | h | h)
      · exact Or.inl h
      · exact Or.inr (Or.inl h)
      · exact Or.inr (Or.inr (Or.inl h))
      · exact Or.inr (Or.inr (Or.inr (Or.inl ⟨h, hr h⟩)))
      · exact Or.inr (Or.inr (Or.inr (Or.inr h)))
  have hD : getDoubleFromObject f (some o) =
      (if sdslen s = 0 ∨ headIsSpace s.buf = true ∨ (f s.buf).consumed ≠ sdslen s ∨
          ((f s.buf).erange = true ∧
            ((f s.buf).val = Dbl.posHuge ∨ (f s.buf).val = Dbl.negHuge ∨
              (f s.buf).val = Dbl.finite 0)) ∨ (f s.buf).val = Dbl.nan then
        Except.ok none
      else Except.ok (some (f s.buf).val)) := by
    simp only [getDoubleFromObject]
    rw [if_pos ht, if_pos he, hp]
    simp only [ptrSds]
  have hL : getLongDoubleFromObject g (some o) =
      (if sdslen s = 0 ∨ headIsSpace s.buf = true ∨ (g s.buf).consumed ≠ sdslen s ∨
          ((g s.buf).erange = true ∧
            ((g s.buf).val = Dbl.posHuge ∨ (g s.buf).val = Dbl.negHuge ∨
              (g s.buf).val = Dbl.finite 0)) ∨ (g s.buf).val = Dbl.nan then
        Except.ok none
      else Except.ok (some (g s.buf).val)) := by
    simp only [getLongDoubleFromObject]
    rw [if_pos ht, if_pos he, hp]
    simp only [ptrSds]
  refine ⟨?_, ?_, ?_, ?_⟩
  · rw [hD]
    by_cases hC : sdslen s = 0 ∨ headIsSpace s.buf = true ∨ (f s.buf).consumed ≠ sdslen s ∨
        ((f s.buf).erange = true ∧
          ((f s.buf).val = Dbl.posHuge ∨ (f s.buf).val = Dbl.negHuge ∨
            (f s.buf).val = Dbl.finite 0)) ∨ (f s.buf).val = Dbl.nan
    · rw [if_pos hC]
      exact iff_of_true rfl ((hcond (f s.buf) hf).mp hC)
    · rw [if_neg hC]
      exact iff_of_false (fun hx => Option.noConfusion (Except.ok.inj hx))
        (fun hx => hC ((hcond (f s.buf) hf).mpr hx))
  · intro hnot
    rw [hD, if_neg (fun hx => hnot ((hcond (f s.buf) hf).mp hx))]
  · rw [hL]
    by_cases hC : sdslen s = 0 ∨ headIsSpace s.buf = true ∨ (g s.buf).consumed ≠ sdslen s ∨
        ((g s.buf).erange = true ∧
          ((g s.buf).val = Dbl.posHuge ∨ (g s.buf).val = Dbl.negHuge ∨
            (g s.buf).val = Dbl.finite 0)) ∨ (g s.buf).val = Dbl.nan
    · rw [if_pos hC]
      exact iff_of_true rfl ((hcond (g s.buf) hg).mp hC)
    · rw [if_neg hC]
      exact iff_of_false (fun hx => Option.noConfusion (Except.ok.inj hx))
        (fun hx => hC ((hcond (g s.buf) hg).mpr hx))
  · intro hnot
    rw [hL, if_neg (fun hx => hnot ((hcond (g s.buf) hg).mp hx))]

/-- Witness for C8: a full-consumption, no-error parse of "1" succeeds
with the parsed value. -/
theorem getDoubleFromObject_error_iff_witness :
    getDoubleFromObject strtoOk (some oNum) = Except.ok (some (strtoOk [49]).val) :=
  (getDoubleFromObject_error_iff strtoOk strtoOk oNum ⟨[49], 1⟩ rfl (by decide) rfl
    (by decide) (by decide)).2.1 (by decide)

/-- C9: for a stored key, the MEMORY USAGE reply is objectComputeSize of
the value plus the allocator-reported size of the sds holding the key plus the
size of one dict entry; the sample budget defaults to 5 when SAMPLES is
absent, and SAMPLES 0 becomes the unlimited budget LLONG_MAX. -/
theorem memoryUsage_reply (ctx : MemCtx) (db : List (List Nat × RObj)) (m sub key o : RObj)
    (hsub : strcaseEq (objBytes sub) usageLit = true)
    (hkey : dbLookup db (objBytes key) = some o) :
    (memoryCommandUsage ctx db [m, sub, key] =
      Reply.longlong
        ((ctx.computeSize o 5 + ctx.allocSize (ptrSds key.ptr) + ctx.dictEntrySize : Nat) : Int)) ∧
    (∀ sArg nArg (n : Int), strcaseEq (objBytes sArg) samplesLit = true →
      getLongLongFromObject (some nArg) = Except.ok (some n) → 0 < n →
      memoryCommandUsage ctx db [m, sub, key, sArg, nArg] =
        Reply.longlong
          ((ctx.computeSize o n.toNat + ctx.allocSize (ptrSds key.ptr) +
            ctx.dictEntrySize : Nat) : Int)) ∧
    (∀ sArg nArg, strcaseEq (objBytes sArg) samplesLit = true →
      getLongLongFromObject (some nArg) = Except.ok (some 0) →
      memoryCommandUsage ctx db [m, sub, key, sArg, nArg] =
        Reply.longlong
          ((ctx.computeSize o LLONG_MAX.toNat + ctx.allocSize (ptrSds key.ptr) +
            ctx.dictEntrySize : Nat) : Int)) := by
  refine ⟨?_, ?_, ?_⟩
  · simp [memoryCommandUsage, hsub, memoryUsageOptions, hkey, OBJ_COMPUTE_SIZE_DEF_SAMPLES]
  · intro sArg nArg n hs hn hpos
    have h0 : ¬ n < 0 := by omega
    have h1 : ¬ n = 0 := by omega
    simp [memoryCommandUsage, hsub, memoryUsageOptions, hs, hn, h0, h1, hkey]
  · intro sArg nArg hs hn
    simp [memoryCommandUsage, hsub, memoryUsageOptions, hs, hn, hkey]

/-- Witness for C9: MEMORY USAGE k SAMPLES 0 on the one-key database. -/
theorem memoryUsage_reply_witness :
    memoryCommandUsage ctx0 db0 [argMemory, argUsage, keyK, argSamples, argZero] =
      Reply.longlong
        ((ctx0.computeSize valObj LLONG_MAX.toNat + ctx0.allocSize (ptrSds keyK.ptr) +
          ctx0.dictEntrySize : Nat) : Int) :=
  (memoryUsage_reply ctx0 db0 argMemory argUsage keyK valObj (by decide) (by decide)).2.2
    argSamples argZero (by decide) rfl

/-- memcmp over the common prefix returns 0 and the lengths agree exactly
when the two byte lists are equal. -/
theorem memcmp_eq_zero_iff : ∀ (a b : List Nat),
    (memcmp a b (min a.length b.length) = 0 ∧ a.length = b.length) ↔ a = b := by
  intro a
  induction a with
  | nil =>
    intro b
    cases b with
    | nil => simp [memcmp]
    | cons y ys => simp [memcmp]
  | cons x xs ih =>
    intro b
    cases b with
    | nil => simp [memcmp]
    | cons y ys =>
      have hmin : min (x :: xs).length (y :: ys).length = min xs.length ys.length + 1 := by
        simp [Nat.succ_min_succ]
      rw [hmin]
      by_cases hxy : x = y
      · subst hxy
        constructor
        · rintro ⟨h1, h2⟩
          have h1b : memcmp xs ys (min xs.length ys.length) = 0 := by
            simpa [memcmp] using h1
          have h2b : xs.length = ys.length := by simpa using h2
          rw [(ih ys).mp ⟨h1b, h2b⟩]
        · intro h
          injection h with _ h2
          subst h2
          refine ⟨by simpa [memcmp] using ((ih xs).mpr rfl).1, rfl⟩
      · constructor
        · rintro ⟨h1, _⟩
          exfalso
          have hz : ((x : Int) - (y : Int)) = 0 := by simpa [memcmp, hxy] using h1
          have : (x : Int) = (y : Int) := by omega
          exact hxy (by exact_mod_cast this)
        · intro h
          injection h with h1 _
          exact absurd h1 hxy

/-- Folding decimal digits most-significant-first recovers the positional
value. -/
theorem foldl_digits_aux (l : List Nat) (acc : Nat) :
    l.reverse.foldl (fun a d => a * 10 + d) acc = acc * 10 ^ l.length + Nat.ofDigits 10 l := by
  induction l generalizing acc with
  | nil => simp
  | cons x l ih =>
    rw [List.reverse_cons, List.foldl_append]
    simp only [List.foldl_cons, List.foldl_nil, ih, Nat.ofDigits_cons, List.length_cons]
    ring

/-- Parsing back the decimal rendering of a natural number recovers it. -/
theorem digitsVal_natDigits (m : Nat) : digitsVal (natDigits m) = m := by
  by_cases h : m = 0
  · subst h; decide
  · unfold natDigits digitsVal
    rw [if_neg h, ← List.map_reverse, List.foldl_map]
    simp only [Nat.add_sub_cancel]
    rw [foldl_digits_aux]
    simp [Nat.ofDigits_digits]

/-- The decimal rendering of a natural number determines it. -/
theorem natDigits_inj {a b : Nat} (h : natDigits a = natDigits b) : a = b := by
  have h2 := congrArg digitsVal h
  rwa [digitsVal_natDigits, digitsVal_natDigits] at h2

/-- Every byte of a decimal rendering is a digit byte, hence at least
48. -/
theorem mem_natDigits_ge (m : Nat) : ∀ x ∈ natDigits m, 48 ≤ x := by
  intro x hx
  unfold natDigits at hx
  by_cases h : m = 0
  · rw [if_pos h] at hx
    simp at hx
    omega
  · rw [if_neg h] at hx
    rw [List.mem_reverse, List.mem_map] at hx
    obtain ⟨d, _, rfl⟩ := hx
    omega

/-- ll2string renders distinct machine integers as distinct byte
strings. -/
theorem ll2string_inj {x y : Int} (h : ll2string x = ll2string y) : x = y := by
  unfold ll2string at h
  by_cases hx : x < 0 <;> by_cases hy : y < 0
  · rw [if_pos hx, if_pos hy] at h
    injection h with h1 h2
    have := natDigits_inj h2
    omega
  · rw [if_pos hx, if_neg hy] at h
    exfalso
    have h45 : (45 : Nat) ∈ natDigits y.toNat := by
      rw [← h]; exact List.mem_cons_self _ _
    have := mem_natDigits_ge y.toNat 45 h45
    omega
  · rw [if_neg hx, if_pos hy] at h
    exfalso
    have h45 : (45 : Nat) ∈ natDigits x.toNat := by
      rw [h]; exact List.mem_cons_self _ _
    have := mem_natDigits_ge x.toNat 45 h45
    omega
  · rw [if_neg hx, if_neg hy] at h
    have := natDigits_inj h
    omega

/-- On two String objects the binary comparison never panics. -/
theorem compareStringObjects_ok (strcoll : List Nat → List Nat → Int) (a b : RObj)
    (ha : a.type = ObjType.string) (hb : b.type = ObjType.string) :
    ∃ c, compareStringObjects strcoll a b = Except.ok c := by
  rw [compareStringObjects, compareStringObjectsWithFlags, if_pos ⟨ha, hb⟩]
  by_cases hab : a = b
  · exact ⟨0, by rw [if_pos hab]⟩
  · rw [if_neg hab]
    have hco : ¬ (REDIS_COMPARE_BINARY &&& REDIS_COMPARE_COLL ≠ 0) := by decide
    rw [if_neg hco]
    by_cases hc : memcmp (objStr a) (objStr b) (min (objStr a).length (objStr b).length) = 0
    · exact ⟨_, by rw [if_pos hc]⟩
    · exact ⟨_, by rw [if_neg hc]⟩

/-- The binary comparison of two String objects returns 0 exactly when
their materialized byte strings coincide. -/
theorem compareStringObjects_zero_iff (strcoll : List Nat → List Nat → Int) (a b : RObj)
    (ha : a.type = ObjType.string) (hb : b.type = ObjType.string) :
    compareStringObjects strcoll a b = Except.ok 0 ↔ objStr a = objStr b := by
  rw [compareStringObjects, compareStringObjectsWithFlags, if_pos ⟨ha, hb⟩]
  by_cases hab : a = b
  · subst hab
    rw [if_pos rfl]
    simp
  · rw [if_neg hab]
    have hco : ¬ (REDIS_COMPARE_BINARY &&& REDIS_COMPARE_COLL ≠ 0) := by decide
    rw [if_neg hco]
    by_cases hc : memcmp (objStr a) (objStr b) (min (objStr a).length (objStr b).length) = 0
    · rw [if_pos hc]
      constructor
      · intro hx
        have hlen : ((objStr a).length : Int) - ((objStr b).length : Int) = 0 := Except.ok.inj hx
        have hlen2 : (objStr a).length = (objStr b).length := by omega
        exact (memcmp_eq_zero_iff _ _).mp ⟨hc, hlen2⟩
      · intro hx
        have hlen := ((memcmp_eq_zero_iff (objStr a) (objStr b)).mpr hx).2
        rw [hlen]
        simp
    · rw [if_neg hc]
      constructor
      · intro hx
        exact absurd (Except.ok.inj hx) hc
      · intro hx
        exact absurd ((memcmp_eq_zero_iff _ _).mpr hx).1 hc

/-- The materialized bytes of an INT-encoded String object are the decimal
form of its payload. -/
theorem objStr_int (o : RObj) (n : Int) (he : o.encoding = ObjEncoding.int)
    (hp : o.ptr = Ptr.intP n) : objStr o = ll2string n := by
  simp [objStr, sdsEncodedObject, he, hp, ptrInt]

/-- C7: equalStringObjects returns true exactly when the binary comparison
returns 0, and on two INT-encoded objects it agrees with equality of the
payload words. -/
theorem equalStringObjects_iff_compare (strcoll : List Nat → List Nat → Int) (a b : RObj)
    (ha : a.type = ObjType.string) (hb : b.type = ObjType.string)
    (hwa : a.encoding = ObjEncoding.int → ∃ n, a.ptr = Ptr.intP n)
    (hwb : b.encoding = ObjEncoding.int → ∃ n, b.ptr = Ptr.intP n) :
    (equalStringObjects strcoll a b = Except.ok 1 ↔
      compareStringObjects strcoll a b = Except.ok 0) ∧
    (∀ na nb, a.encoding = ObjEncoding.int → b.encoding = ObjEncoding.int →
      a.ptr = Ptr.intP na → b.ptr = Ptr.intP nb →
      (equalStringObjects strcoll a b = Except.ok 1 ↔ na = nb)) := by
  by_cases hii : a.encoding = ObjEncoding.int ∧ b.encoding = ObjEncoding.int
  · obtain ⟨na, hpa⟩ := hwa hii.1
    obtain ⟨nb, hpb⟩ := hwb hii.2
    have heq : equalStringObjects strcoll a b = Except.ok (if na = nb then 1 else 0) := by
      rw [equalStringObjects, if_pos hii, hpa, hpb]
      by_cases h : na = nb
      · rw [if_pos (congrArg Ptr.intP h), if_pos h]
      · rw [if_neg (fun hc => h (Ptr.intP.inj hc)), if_neg h]
    have hbytes : objStr a = objStr b ↔ na = nb := by
      rw [objStr_int a na hii.1 hpa, objStr_int b nb hii.2 hpb]
      exact ⟨fun h => ll2string_inj h, fun h => by rw [h]⟩
    constructor
    · rw [heq, compareStringObjects_zero_iff strcoll a b ha hb, hbytes]
      by_cases h : na = nb <;> simp [h]
    · intro na2 nb2 _ _ hpa2 hpb2
      have hna : na2 = na := Ptr.intP.inj (hpa2.symm.trans hpa)
      have hnb : nb2 = nb := Ptr.intP.inj (hpb2.symm.trans hpb)
      rw [heq, hna, hnb]
      by_cases h : na = nb <;> simp [h]
  · obtain ⟨c, hc⟩ := compareStringObjects_ok strcoll a b ha hb
    have heq : equalStringObjects strcoll a b = Except.ok (if c = 0 then 1 else 0) := by
      rw [equalStringObjects, if_neg hii, hc]
    constructor
    · rw [heq, hc]
      by_cases h : c = 0 <;> simp [h]
    · intro na nb hia hib _ _
      exact absurd ⟨hia, hib⟩ hii

/-- Witness for C7 at two distinct INT-encoded headers with payload 2. -/
theorem equalStringObjects_iff_compare_witness :
    equalStringObjects collDummy aInt2 bInt2 = Except.ok 1 ↔ (2 : Int) = 2 :=
  (equalStringObjects_iff_compare collDummy aInt2 bInt2 rfl rfl (fun _ => ⟨2, rfl⟩)
    (fun _ => ⟨2, rfl⟩)).2 2 2 rfl rfl rfl rfl

/-- ptrSds applied to an sds payload. -/
theorem ptrSds_sdsP (s : Sds) : ptrSds (Ptr.sdsP s) = s := rfl

/-- Whatever tryObjectEncoding returns is a fixed point: running it again
returns the very same header unchanged. -/
theorem tryObjectEncoding_stable (cfg : ServerCfg) (o : RObj) (r : EncOut)
    (h : tryObjectEncoding cfg o = Except.ok r) :
    tryObjectEncoding cfg r.obj = Except.ok ⟨EncTag.same, r.obj⟩ := by
  by_cases ht : o.type = ObjType.string
  case neg =>
    rw [tryObjectEncoding, if_neg ht] at h
    exact absurd h (by simp)
  case pos =>
  by_cases hs : sdsEncodedObject o = true
  case neg =>
    rw [tryObjectEncoding, if_pos ht, if_neg hs] at h
    injection h with h2
    subst h2
    show tryObjectEncoding cfg o = Except.ok ⟨EncTag.same, o⟩
    rw [tryObjectEncoding, if_pos ht, if_neg hs]
  case pos =>
  by_cases hrc : o.refcount ≤ 1
  case neg =>
    rw [tryObjectEncoding, if_pos ht, if_pos hs, if_neg hrc] at h
    injection h with h2
    subst h2
    show tryObjectEncoding cfg o = Except.ok ⟨EncTag.same, o⟩
    rw [tryObjectEncoding, if_pos ht, if_pos hs, if_neg hrc]
  case pos =>
  rw [tryObjectEncoding, if_pos ht, if_pos hs, if_pos hrc] at h
  cases hv : (if sdslen (ptrSds o.ptr) ≤ 20 then string2l (ptrSds o.ptr).buf else none) with
  | some value =>
    simp only [hv] at h
    by_cases hsh : sharedEnabled cfg = true ∧ 0 ≤ value ∧ value < OBJ_SHARED_INTEGERS
    · rw [if_pos hsh] at h
      cases hd : decrRefCount o with
      | ok u =>
        simp only [hd] at h
        injection h with h2
        subst h2
        simp [tryObjectEncoding, sharedIntegers, sdsEncodedObject]
      | error e =>
        simp only [hd] at h
        exact absurd h (by simp)
    · rw [if_neg hsh] at h
      injection h with h2
      subst h2
      simp [tryObjectEncoding, sdsEncodedObject, ht]
  | none =>
    simp only [hv] at h
    by_cases h44 : sdslen (ptrSds o.ptr) ≤ OBJ_ENCODING_EMBSTR_SIZE_LIMIT
    · rw [if_pos h44] at h
      by_cases hemb : o.encoding = ObjEncoding.embstr
      · rw [if_pos hemb] at h
        injection h with h2
        subst h2
        show tryObjectEncoding cfg o = Except.ok ⟨EncTag.same, o⟩
        rw [tryObjectEncoding, if_pos ht, if_pos hs, if_pos hrc]
        simp only [hv]
        rw [if_pos h44, if_pos hemb]
      · rw [if_neg hemb] at h
        cases hd : decrRefCount o with
        | error e =>
          simp only [hd] at h
          exact absurd h (by simp)
        | ok u =>
          simp only [hd] at h
          injection h with h2
          subst h2
          have hb : bytesOf (some (ptrSds o.ptr).buf) (sdslen (ptrSds o.ptr)) =
              (ptrSds o.ptr).buf := by
            simp [bytesOf, sdslen]
          have hE : createEmbeddedStringObject cfg (some (ptrSds o.ptr).buf)
                (sdslen (ptrSds o.ptr)) =
              ⟨ObjType.string, ObjEncoding.embstr, 1, lruInit cfg,
                Ptr.sdsP ⟨(ptrSds o.ptr).buf, sdslen (ptrSds o.ptr)⟩⟩ := by
            rw [createEmbeddedStringObject, hb]
          show tryObjectEncoding cfg
              (createEmbeddedStringObject cfg (some (ptrSds o.ptr).buf)
                (sdslen (ptrSds o.ptr))) =
            Except.ok ⟨EncTag.same,
              createEmbeddedStringObject cfg (some (ptrSds o.ptr).buf)
                (sdslen (ptrSds o.ptr))⟩
          rw [hE]
          have hv2 : (if (ptrSds o.ptr).buf.length ≤ 20 then string2l (ptrSds o.ptr).buf
              else none) = none := by
            simpa [sdslen] using hv
          have h44b : (ptrSds o.ptr).buf.length ≤ OBJ_ENCODING_EMBSTR_SIZE_LIMIT := by
            simpa [sdslen] using h44
          simp [tryObjectEncoding, sdsEncodedObject, ptrSds_sdsP, sdslen, hv2, h44b]
    · rw [if_neg h44] at h
      by_cases hshr : o.encoding = ObjEncoding.raw ∧
          sdslen (ptrSds o.ptr) / 10 < sdsavail (ptrSds o.ptr)
      · rw [if_pos hshr] at h
        injection h with h2
        subst h2
        have ht2 : ({ o with ptr := Ptr.sdsP (sdsRemoveFreeSpace (ptrSds o.ptr)) } : RObj).type =
            ObjType.string := ht
        have hs2 : sdsEncodedObject
            { o with ptr := Ptr.sdsP (sdsRemoveFreeSpace (ptrSds o.ptr)) } = true := hs
        have hrc2 : ({ o with ptr := Ptr.sdsP (sdsRemoveFreeSpace (ptrSds o.ptr)) } : RObj).refcount ≤ 1 := hrc
        show tryObjectEncoding cfg { o with ptr := Ptr.sdsP (sdsRemoveFreeSpace (ptrSds o.ptr)) } =
          Except.ok ⟨EncTag.same, { o with ptr := Ptr.sdsP (sdsRemoveFreeSpace (ptrSds o.ptr)) }⟩
        rw [tryObjectEncoding, if_pos ht2, if_pos hs2, if_pos hrc2]
        have hn20 : ¬ (ptrSds o.ptr).buf.length ≤ 20 := by
          intro hx
          exact h44 (le_trans hx (by norm_num [OBJ_ENCODING_EMBSTR_SIZE_LIMIT]))
        have h44c : ¬ (ptrSds o.ptr).buf.length ≤ OBJ_ENCODING_EMBSTR_SIZE_LIMIT := h44
        simp [ptrSds_sdsP, sdsRemoveFreeSpace, sdslen, sdsavail, hn20, h44c]
      · rw [if_neg hshr] at h
        injection h with h2
        subst h2
        show tryObjectEncoding cfg o = Except.ok ⟨EncTag.same, o⟩
        rw [tryObjectEncoding, if_pos ht, if_pos hs, if_pos hrc]
        simp only [hv]
        rw [if_neg h44, if_neg hshr]

/-- C6: tryObjectEncoding is idempotent: re-encoding its result yields a
value with the same encoding and the same string bytes. -/
theorem tryObjectEncoding_idempotent (cfg : ServerCfg) (o : RObj) (r : EncOut)
    (h : tryObjectEncoding cfg o = Except.ok r) :
    ∃ r2 : EncOut, tryObjectEncoding cfg r.obj = Except.ok r2 ∧
      r2.obj.encoding = r.obj.encoding ∧ strBytes r2.obj = strBytes r.obj :=
  ⟨⟨EncTag.same, r.obj⟩, tryObjectEncoding_stable cfg o r h, rfl, rfl⟩

/-- Witness for C6 at the EMBSTR object "abc". -/
theorem tryObjectEncoding_idempotent_witness :
    ∃ r2 : EncOut, tryObjectEncoding cfg0 (EncOut.mk EncTag.same oAbc).obj = Except.ok r2 ∧
      r2.obj.encoding = (EncOut.mk EncTag.same oAbc).obj.encoding ∧
      strBytes r2.obj = strBytes (EncOut.mk EncTag.same oAbc).obj :=
  tryObjectEncoding_idempotent cfg0 oAbc ⟨EncTag.same, oAbc⟩ (by rfl)

end Redis
